import Mathlib

/-!
Shallow embedding of the sandbox judge in src/crates/theoj-judge/src/judger.cpp
and proofs about its verdict derivation, cgroup-counter harvesting, framing
codec, executor wait logic, supervisor error handling, and cleanup behaviour.

Machine integers are modelled as Nat/Int with explicit wrapping where it
matters; fallible C++ operations (throwing parsers, failing reads) are
modelled with Option; the filesystem is modelled as a partial map from paths
to contents.
-/

namespace Judger

/-- The verdict enumeration (judger.cpp lines 31-37). -/
inductive Verdict where
  | OK
  | TLE
  | MLE
  | RE
  | UKE
deriving DecidableEq

/-- Outcome of waitpid on a child, as observed through the WIFEXITED and
WEXITSTATUS macros: either a normal exit with an 8-bit code, or a
signal-caused termination. -/
inductive WaitStatus where
  | exited (code : Nat)
  | signaled (sig : Nat)
deriving DecidableEq

/-- Classification of whitespace used by C++ stream extraction and by stoll:
space, tab, newline, vertical tab, form feed, carriage return. -/
def is_cpp_space (c : Char) : Bool :=
  c = ' ' || c = '\t' || c = '\n' || c = '\x0b' || c = '\x0c' || c = '\r'

/-- Value of a decimal digit list, most significant first. -/
def natOfDigits (ds : List Char) : Nat :=
  ds.foldl (fun a c => a * 10 + (c.toNat - 48)) 0

/-- The leading decimal-digit run of a character list, as a value; none when
there is no digit (std::stoll and std::stoi throw invalid_argument then). -/
def parse_digits_val (cs : List Char) : Option Nat :=
  let ds := cs.takeWhile Char.isDigit
  if ds.isEmpty then none else some (natOfDigits ds)

/-- std::stoll and std::stoi, base 10: skip whitespace, optional sign, leading
digit run; values outside [lo, hi] throw out_of_range (modelled as none). -/
def cpp_parse_signed (lo hi : Int) (s : String) : Option Int :=
  match s.data.dropWhile (fun c => is_cpp_space c) with
  | '-' :: rest =>
    match parse_digits_val rest with
    | none => none
    | some v => if lo ≤ -(v : Int) ∧ -(v : Int) ≤ hi then some (-(v : Int)) else none
  | '+' :: rest =>
    match parse_digits_val rest with
    | none => none
    | some v => if lo ≤ (v : Int) ∧ (v : Int) ≤ hi then some (v : Int) else none
  | rest =>
    match parse_digits_val rest with
    | none => none
    | some v => if lo ≤ (v : Int) ∧ (v : Int) ≤ hi then some (v : Int) else none

/-- std::stoll: 64-bit signed range. -/
def stoll : String → Option Int :=
  cpp_parse_signed (-(9223372036854775808 : Int)) 9223372036854775807

/-- std::stoi: 32-bit signed range. -/
def stoi : String → Option Int :=
  cpp_parse_signed (-(2147483648 : Int)) 2147483647

/-- Token extraction of a C++ stringstream: successive maximal runs of
non-whitespace characters. The first argument is the remaining input, the
second the (reversed) current token. -/
def words_aux : List Char → List Char → List String
  | [], cur => if cur.isEmpty then [] else [String.mk cur.reverse]
  | c :: cs, cur =>
    if is_cpp_space c then
      if cur.isEmpty then words_aux cs [] else String.mk cur.reverse :: words_aux cs []
    else words_aux cs (c :: cur)

/-- All whitespace-separated tokens of a string, in order. -/
def stream_tokens (s : String) : List String :=
  words_aux s.data []

/-- The pairwise scan of get_cgroup_key (judger.cpp lines 167-175): the while
loop extracts tokens two at a time as key and value and returns the value of
the first matching key; when tokens run out (including a dangling unpaired
token) it returns the string zero. -/
def pair_scan : List String → String → String
  | key :: val :: rest, k => if key = k then val else pair_scan rest k
  | _, _ => "0"

/-- get_cgroup_key (judger.cpp lines 167-175). -/
def get_cgroup_key (s k : String) : String :=
  pair_scan (stream_tokens s) k

/-- Spec reading of the cgroup file format: tokens grouped into key/value
pairs. Used to compare the source scan against the description of the spec. -/
def chunk_pairs : List String → List (String × String)
  | key :: val :: rest => (key, val) :: chunk_pairs rest
  | _ => []

/-- read_file (judger.cpp lines 146-153): a file that cannot be opened reads
as the empty string. The filesystem is a partial map from paths to text. -/
def read_file (fs : String → Option String) (path : String) : String :=
  (fs path).getD ""

/-- read_bin_file (judger.cpp lines 155-165): a file that cannot be opened or
read yields an empty buffer. The filesystem is a partial map from paths to
byte lists. -/
def read_bin_file (fs : String → Option (List Nat)) (path : String) : List Nat :=
  (fs path).getD []

/-- res.time (judger.cpp line 360): user_usec from cpu.stat, divided by 1000
with C++ truncating division. none models a stoll throw escaping P1. -/
def time_ms (cpu_stat : String) : Option Int :=
  (stoll (get_cgroup_key cpu_stat "user_usec")).map (fun v => Int.tdiv v 1000)

/-- res.memory (judger.cpp line 361): memory.peak in bytes, 0 when the file
content is empty, divided by 1024 twice with C++ truncating division. -/
def memory_mb (mem_peak : String) : Option Int :=
  (if mem_peak.isEmpty then some 0 else stoll mem_peak).map
    (fun v => Int.tdiv (Int.tdiv v 1024) 1024)

/-- oom (judger.cpp line 362): the oom_kill counter of memory.events. -/
def oom_count (mem_events : String) : Option Int :=
  stoi (get_cgroup_key mem_events "oom_kill")

/-- exit_code in container_init (judger.cpp lines 352-354): P2's exit status
when it terminated normally, 255 otherwise. -/
def exit_code_of : WaitStatus → Nat
  | .exited c => c
  | .signaled _ => 255

/-- Verdict derivation in container_init (judger.cpp lines 349-376): the
chain on exit_code, then the oom override, then the measured-time override,
in source order, later assignments replacing earlier ones. -/
def derive_verdict (status : WaitStatus) (oom : Int) (time : Int)
    (time_limit : Int) : Verdict :=
  let ec := exit_code_of status
  let v1 : Verdict :=
    if ec = 0 then .OK else if ec = 1 then .RE else if ec = 2 then .TLE else .UKE
  let v2 : Verdict := if oom ≠ 0 then .MLE else v1
  if time > time_limit then .TLE else v2

/-- EXTRA_TIME (judger.cpp line 28): the grace period in milliseconds. -/
def EXTRA_TIME : Int := 1000

/-- The timespec handed to sigtimedwait (judger.cpp lines 238-241): whole
seconds and remaining nanoseconds of time_limit plus EXTRA_TIME, computed
with C++ truncating division and remainder. -/
def exec_timeout (time_limit : Int) : Int × Int :=
  let t := time_limit + EXTRA_TIME
  (Int.tdiv t 1000, Int.tmod t 1000 * 1000000)

/-- Result of the sigtimedwait call (judger.cpp line 243): a negative return
with errno EAGAIN is a timeout, negative with another errno is a failure,
otherwise the SIGCHLD arrived. -/
inductive SigWait where
  | timeout
  | failed
  | received
deriving DecidableEq

/-- Result of the non-blocking waitpid (judger.cpp line 262): either the
grandchild was collected with a wait status, or it was not collected. -/
inductive NBWait where
  | collected (st : WaitStatus)
  | stillRunning
deriving DecidableEq

/-- Observable outcome of the wait phase of sandbox_executor: whether a
SIGKILL was sent to the grandchild, whether some waitpid call collected it,
and the return value of sandbox_executor, which becomes the exit status of
P2. -/
structure ExecOutcome where
  killed : Bool
  reaped : Bool
  code : Nat
deriving DecidableEq

/-- The wait phase of sandbox_executor (judger.cpp lines 243-271): dispatch
on the sigtimedwait result and, when the signal arrived, on the non-blocking
waitpid result. -/
def executor_wait : SigWait → NBWait → ExecOutcome
  | .timeout, _ => ⟨true, true, 2⟩
  | .failed, _ => ⟨true, true, 1⟩
  | .received, .collected st =>
    ⟨false, true,
      match st with
      | .exited c => if c = 0 then 0 else 1
      | .signaled _ => 3⟩
  | .received, .stillRunning => ⟨true, false, 1⟩

/-- One {filename, content, mode} record (judger.cpp lines 39-43). -/
structure FileInfo where
  filename : String
  content : List Nat
  mode : Nat
deriving DecidableEq

/-- Collection of the requested output files (judger.cpp lines 381-384): one
record per requested name, in request order, content read back from the
scratch tmp directory with read_bin_file, mode field set to zero. -/
def collect_output_files (fs : String → Option (List Nat)) (tmp_path : String)
    (names : List String) : List FileInfo :=
  names.map (fun fname => ⟨fname, read_bin_file fs (tmp_path ++ "/" ++ fname), 0⟩)

/-- The response data assembled by the supervisor (fields of JudgeResult as
they are written to the output stream, judger.cpp lines 59-66 and
510-519). -/
structure JudgeResultFrame where
  verdict : Verdict
  time : Int
  memory : Int
  stdout_content : String
  stderr_content : String
  output_files : List FileInfo

/-- The frame emitted by the catch handler of main (judger.cpp lines
521-535): verdict UKE, zero time, zero memory, empty stdout, the diagnostic
message in stderr, zero output files. -/
def internal_error_result (msg : String) : JudgeResultFrame :=
  { verdict := .UKE
    time := 0
    memory := 0
    stdout_content := ""
    stderr_content := "Internal Error: " ++ msg
    output_files := [] }

/-- main (judger.cpp lines 410-539), abstracted over whether the try block
produced a response or threw with a message: the pair of the single emitted
response frame and the process exit status. -/
def supervisor_main (outcome : Except String JudgeResultFrame) :
    JudgeResultFrame × Nat :=
  match outcome with
  | .ok res => (res, 0)
  | .error msg => (internal_error_result msg, 1)

/-- Little-endian byte image of the low 32 bits of a natural number, as
written for a C int by write_full. -/
def u32le_bytes (n : Nat) : List Nat :=
  [n % 256, n / 256 % 256, n / 65536 % 256, n / 16777216 % 256]

/-- Natural value of four little-endian bytes. -/
def u32le_value (b0 b1 b2 b3 : Nat) : Nat :=
  b0 + 256 * b1 + 65536 * b2 + 16777216 * b3

/-- The signed 32-bit integer whose bit image is the low 32 bits of n. -/
def toInt32 (n : Nat) : Int :=
  if n % 4294967296 < 2147483648 then ((n % 4294967296 : Nat) : Int)
  else ((n % 4294967296 : Nat) : Int) - 4294967296

/-- read_proto_str (judger.cpp lines 96-104) over a byte stream: read four
bytes as an int length; a zero length returns the empty string at once; a
negative length makes the string constructor throw (none); otherwise consume
exactly length payload bytes, failing when the stream is too short. Returns
the payload and the unconsumed remainder. -/
def read_proto_str : List Nat → Option (List Nat × List Nat)
  | b0 :: b1 :: b2 :: b3 :: rest =>
    let len := toInt32 (u32le_value b0 b1 b2 b3)
    if len = 0 then some ([], rest)
    else if len < 0 then none
    else if rest.length < len.toNat then none
    else some (rest.take len.toNat, rest.drop len.toNat)
  | _ => none

/-- write_proto_str (judger.cpp lines 106-111): write the length as a C int
in four little-endian bytes, then the payload bytes only when the int length
is positive. -/
def write_proto_str (s : List Nat) : List Nat :=
  u32le_bytes s.length ++ (if 0 < toInt32 s.length then s else [])

/-- The operations of container_init that can fail, in source order
(judger.cpp lines 274-407). mkdir results are not checked by the source and
are modelled as succeeding. -/
structure InitEnv where
  barrier_ok : Bool
  ns_setup_ok : Bool
  bind_mount_ok : Bool
  tmpfs_ok : Bool
  input_files_ok : Bool
  pipe2_ok : Bool
  limits_ok : Bool
  clone_ok : Bool
  procs_write_ok : Bool
  harvest_ok : Bool
  result_write_ok : Bool
deriving DecidableEq

/-- Which of the two sandbox directories were ever created and which still
exist when container_init is over. -/
structure DirState where
  scratch_created : Bool
  cgroup_created : Bool
  scratch_exists : Bool
  cgroup_exists : Bool
deriving DecidableEq

/-- How container_init ends: a return with a code, or process death from an
uncaught exception (std::terminate in the clone child). -/
inductive InitOutcome where
  | ret (code : Nat)
  | aborted
deriving DecidableEq

/-- Directory effects of container_init (judger.cpp lines 274-407), path by
path: the scratch directory is created after the namespace setup, the cgroup
directory after the input files are written; the cleanup block (lines
387-390) removes both, and runs only after a successful wait and harvest,
before the result is written. Early returns and aborts skip it. -/
def container_init_dirs (env : InitEnv) : DirState × InitOutcome :=
  if !env.barrier_ok then (⟨false, false, false, false⟩, .ret 1)
  else if !env.ns_setup_ok then (⟨false, false, false, false⟩, .ret 1)
  else if !env.bind_mount_ok then (⟨true, false, true, false⟩, .ret 1)
  else if !env.tmpfs_ok then (⟨true, false, true, false⟩, .ret 1)
  else if !env.input_files_ok then (⟨true, false, true, false⟩, .ret 1)
  else if !env.pipe2_ok then (⟨true, true, true, true⟩, .ret 1)
  else if !env.limits_ok then (⟨true, true, true, true⟩, .ret 1)
  else if !env.clone_ok then (⟨true, true, true, true⟩, .ret 1)
  else if !env.procs_write_ok then (⟨true, true, true, true⟩, .aborted)
  else if !env.harvest_ok then (⟨true, true, true, true⟩, .aborted)
  else if !env.result_write_ok then (⟨true, true, false, false⟩, .aborted)
  else (⟨true, true, false, false⟩, .ret 0)

/-- The invariant claimed by the spec for the two directories: either both
were created and both no longer exist, or neither was ever created and
neither exists. -/
def both_or_neither (s : DirState) : Prop :=
  (s.scratch_created = true ∧ s.cgroup_created = true
    ∧ s.scratch_exists = false ∧ s.cgroup_exists = false)
  ∨ (s.scratch_created = false ∧ s.cgroup_created = false
    ∧ s.scratch_exists = false ∧ s.cgroup_exists = false)

instance (s : DirState) : Decidable (both_or_neither s) := by
  unfold both_or_neither
  infer_instance

/-- The pairwise while-loop scan agrees with a first-match association lookup
over the tokens chunked into key/value pairs, with default zero. -/
theorem pair_scan_eq_lookup : ∀ (ts : List String) (k : String),
    pair_scan ts k = ((chunk_pairs ts).lookup k).getD "0"
  | [], _ => rfl
  | [_], _ => rfl
  | key :: val :: rest, k => by
    simp only [pair_scan, chunk_pairs, List.lookup]
    by_cases h : key = k
    · subst h
      simp
    · have hb : (k == key) = false := by
        simp only [beq_eq_false_iff_ne, ne_eq]
        exact fun e => h e.symm
      have hk : ¬(key = k) := h
      simp [hk, hb, pair_scan_eq_lookup rest k]

/-- toInt32 is the identity below 2^31. -/
theorem toInt32_of_lt {n : Nat} (h : n < 2147483648) : toInt32 n = (n : Int) := by
  unfold toInt32
  rw [Nat.mod_eq_of_lt (by omega)]
  rw [if_pos h]

/-- Reassembling the four little-endian bytes of a value below 2^32 gives the
value back. -/
theorem u32le_value_bytes {n : Nat} (h : n < 4294967296) :
    u32le_value (n % 256) (n / 256 % 256) (n / 65536 % 256) (n / 16777216 % 256) = n := by
  unfold u32le_value
  omega

/-- Claim C1 counterexample: a run whose cgroup oom_kill count is positive
while the measured time exceeds the limit gets verdict TLE, not MLE — the
measured-time override (judger.cpp line 375) runs after and replaces the
memory-kill override (line 373). -/
theorem claim_C1_counterexample :
    derive_verdict (WaitStatus.exited 0) 1 2000 1000 = Verdict.TLE
    ∧ derive_verdict (WaitStatus.exited 0) 1 2000 1000 ≠ Verdict.MLE := by
  decide

/-- Claim C1, amended: in the verdict derivation performed by container-init,
a memory-kill dominates the exit-code verdict but not the measured-time
check: for every run with a positive oom_kill count the verdict is MLE unless
the measured time exceeds the limit, in which case it is TLE (precedence
TLE-by-time > MLE > exit-code verdict). -/
theorem claim_C1 (st : WaitStatus) (oom time time_limit : Int) (h : 0 < oom) :
    derive_verdict st oom time time_limit =
      if time > time_limit then Verdict.TLE else Verdict.MLE := by
  simp [derive_verdict, h.ne']

/-- Witness for claim C1 at a concrete input: oom positive and time within
the limit gives MLE. -/
theorem claim_C1_witness :
    derive_verdict (WaitStatus.exited 0) 1 500 1000 = Verdict.MLE := by
  rw [claim_C1 (WaitStatus.exited 0) 1 500 1000 (by decide)]
  decide

/-- Claim C2: when neither override fires, the verdict is the exit-status
chain — ec = 0 gives OK, 1 gives RE, 2 gives TLE, anything else UKE — where
ec is the exit status for a normal termination and 255 otherwise. -/
theorem claim_C2 (st : WaitStatus) (time time_limit : Int) (h : time ≤ time_limit) :
    (derive_verdict st 0 time time_limit =
      if exit_code_of st = 0 then Verdict.OK
      else if exit_code_of st = 1 then Verdict.RE
      else if exit_code_of st = 2 then Verdict.TLE
      else Verdict.UKE)
    ∧ (∀ c, exit_code_of (WaitStatus.exited c) = c)
    ∧ (∀ sg, exit_code_of (WaitStatus.signaled sg) = 255) := by
  refine ⟨?_, fun c => rfl, fun sg => rfl⟩
  simp only [derive_verdict, gt_iff_lt]
  rw [if_neg (not_lt.mpr h)]
  simp

/-- Witness for claim C2 at a concrete input: exit status 2 maps to TLE. -/
theorem claim_C2_witness :
    derive_verdict (WaitStatus.exited 2) 0 100 1000 = Verdict.TLE := by
  rw [(claim_C2 (WaitStatus.exited 2) 100 1000 (by decide)).1]
  decide

/-- Claim C3: when any step of the supervisor throws, exactly one response
frame is still emitted, carrying verdict UKE, time 0, memory 0, empty
stdout, a stderr that is the string Internal Error: followed by the failure
message, and zero output files, and the process exit status is 1; when a
normal response was produced it is emitted unchanged and the exit status is
0 regardless of verdict. -/
theorem claim_C3 :
    (∀ msg : String,
      supervisor_main (Except.error msg)
        = ({ verdict := Verdict.UKE
             time := 0
             memory := 0
             stdout_content := ""
             stderr_content := "Internal Error: " ++ msg
             output_files := [] }, 1))
    ∧ ∀ res : JudgeResultFrame, supervisor_main (Except.ok res) = (res, 0) :=
  ⟨fun _ => rfl, fun _ => rfl⟩

/-- Claim C4 counterexample: when the non-blocking wait finds the grandchild
still running, sandbox_executor sends SIGKILL and returns 1 but performs no
further wait — the grandchild is not reaped on this path (judger.cpp lines
269-271). -/
theorem claim_C4_counterexample :
    executor_wait SigWait.received NBWait.stillRunning = ⟨true, false, 1⟩
    ∧ (executor_wait SigWait.received NBWait.stillRunning).reaped = false := by
  decide

/-- Claim C4, amended: on timeout the executor SIGKILLs the grandchild, reaps
it, and exits 2; on any other wait failure it kills, reaps, and exits 1;
otherwise it reaps with a non-blocking wait and exits 0 on a normal exit
with code 0, 1 on a normal exit with a non-zero code, 3 on a signal-caused
termination; and when the non-blocking wait finds the grandchild still
running it kills and exits 1 without reaping. -/
theorem claim_C4 :
    (∀ nb, executor_wait SigWait.timeout nb = ⟨true, true, 2⟩)
    ∧ (∀ nb, executor_wait SigWait.failed nb = ⟨true, true, 1⟩)
    ∧ (∀ c, executor_wait SigWait.received (NBWait.collected (WaitStatus.exited c))
        = ⟨false, true, if c = 0 then 0 else 1⟩)
    ∧ (∀ sg, executor_wait SigWait.received (NBWait.collected (WaitStatus.signaled sg))
        = ⟨false, true, 3⟩)
    ∧ executor_wait SigWait.received NBWait.stillRunning = ⟨true, false, 1⟩ :=
  ⟨fun _ => rfl, fun _ => rfl, fun _ => rfl, fun _ => rfl, rfl⟩

/-- Claim C5: the reported memory is the integer parsed from memory.peak,
integer-divided by 1024 and then by 1024 again, which for a byte count is
the floor of bytes over 2^20; an absent or empty memory.peak reads as 0. -/
theorem claim_C5 :
    (∀ (s : String) (n : Int), stoll s = some n →
        memory_mb s = some (Int.tdiv (Int.tdiv n 1024) 1024))
    ∧ (∀ n : Nat, Int.tdiv (Int.tdiv (n : Int) 1024) 1024 = ((n / 2 ^ 20 : Nat) : Int))
    ∧ memory_mb "" = some 0
    ∧ (∀ (fs : String → Option String) (p : String), fs p = none →
        memory_mb (read_file fs p) = some 0) := by
  refine ⟨?_, ?_, by decide, ?_⟩
  · intro s n h
    have hs : s.isEmpty = false := by
      cases hse : s.isEmpty
      · rfl
      · rw [(String.isEmpty_iff s).mp hse] at h
        rw [show stoll "" = none from by decide] at h
        exact Option.noConfusion h
    simp [memory_mb, hs, h]
  · intro n
    have h1 : Int.tdiv (n : Int) 1024 = ((n / 1024 : Nat) : Int) := rfl
    have h2 : Int.tdiv ((n / 1024 : Nat) : Int) 1024 = ((n / 1024 / 1024 : Nat) : Int) := rfl
    rw [h1, h2, Nat.div_div_eq_div_mul]
    norm_num
  · intro fs p h
    rw [show read_file fs p = "" by simp [read_file, h]]
    decide

/-- Witness for claim C5 at a concrete input: 3145728 bytes report as 3. -/
theorem claim_C5_witness : memory_mb "3145728" = some 3 := by
  rw [claim_C5.1 "3145728" 3145728 (by decide)]
  decide

/-- Claim C6: the reported time is the value of the key user_usec in
cpu.stat divided by 1000; cpu.stat (and likewise memory.events for oom_kill)
is parsed as whitespace-separated key/value pairs, and a key absent from the
file reads as the string zero. -/
theorem claim_C6 :
    (∀ s k : String,
        get_cgroup_key s k = ((chunk_pairs (stream_tokens s)).lookup k).getD "0")
    ∧ (∀ s k : String,
        (chunk_pairs (stream_tokens s)).lookup k = none → get_cgroup_key s k = "0")
    ∧ (∀ (cpu_stat : String) (n : Int),
        stoll (get_cgroup_key cpu_stat "user_usec") = some n →
        time_ms cpu_stat = some (Int.tdiv n 1000))
    ∧ (∀ mem_events : String,
        oom_count mem_events = stoi (get_cgroup_key mem_events "oom_kill")) := by
  refine ⟨fun s k => pair_scan_eq_lookup _ _, ?_, ?_, fun _ => rfl⟩
  · intro s k h
    rw [show get_cgroup_key s k = pair_scan (stream_tokens s) k from rfl,
      pair_scan_eq_lookup, h]
    rfl
  · intro cpu_stat n h
    simp [time_ms, h]

/-- Witness for claim C6 at a concrete input: 5000 microseconds of user time
report as 5 milliseconds. -/
theorem claim_C6_witness :
    time_ms "user_usec 5000\nsystem_usec 2000\n" = some 5 := by
  rw [claim_C6.2.2.1 "user_usec 5000\nsystem_usec 2000\n" 5000 (by decide)]
  decide

/-- Claim C7: the timeout handed to the timed SIGCHLD wait is exactly
time_limit plus the 1000 ms grace, encoded as whole seconds and remaining
nanoseconds; reassembling seconds and nanoseconds gives back exactly
(time_limit + 1000) milliseconds. -/
theorem claim_C7 :
    EXTRA_TIME = 1000
    ∧ (∀ n : Nat, (exec_timeout (n : Int)).1 = (((n + 1000) / 1000 : Nat) : Int))
    ∧ (∀ n : Nat, (exec_timeout (n : Int)).2 = (((n + 1000) % 1000 * 1000000 : Nat) : Int))
    ∧ (∀ n : Nat, (exec_timeout (n : Int)).1 * 1000000000 + (exec_timeout (n : Int)).2
        = ((n : Int) + 1000) * 1000000) := by
  have hcast : ∀ n : Nat, (n : Int) + EXTRA_TIME = ((n + 1000 : Nat) : Int) := by
    intro n
    unfold EXTRA_TIME
    push_cast
    ring
  have h1 : ∀ n : Nat, (exec_timeout (n : Int)).1 = (((n + 1000) / 1000 : Nat) : Int) := by
    intro n
    show Int.tdiv ((n : Int) + EXTRA_TIME) 1000 = _
    rw [hcast n]
    rfl
  have h2 : ∀ n : Nat,
      (exec_timeout (n : Int)).2 = (((n + 1000) % 1000 * 1000000 : Nat) : Int) := by
    intro n
    show Int.tmod ((n : Int) + EXTRA_TIME) 1000 * 1000000 = _
    rw [hcast n]
    push_cast
    rfl
  refine ⟨rfl, h1, h2, ?_⟩
  intro n
  rw [h1 n, h2 n]
  have hN : ((n + 1000) / 1000) * 1000000000 + (n + 1000) % 1000 * 1000000
      = (n + 1000) * 1000000 := by omega
  push_cast
  exact_mod_cast congrArg (fun m : Nat => (m : Int)) hN

/-- Claim C8: the output_files sequence has exactly one entry per requested
name, in request order, each holding the bytes read back from the scratch
directory; a missing or unreadable file appears with empty content, and the
mode of every entry is zero. -/
theorem claim_C8 (fs : String → Option (List Nat)) (tmp_path : String)
    (names : List String) :
    ((collect_output_files fs tmp_path names).map FileInfo.filename = names)
    ∧ (∀ i : Nat, (collect_output_files fs tmp_path names)[i]?
        = (names[i]?).map
            (fun fname => ⟨fname, read_bin_file fs (tmp_path ++ "/" ++ fname), 0⟩))
    ∧ (∀ f ∈ collect_output_files fs tmp_path names, f.mode = 0)
    ∧ (∀ p : String, fs p = none → read_bin_file fs p = []) := by
  refine ⟨?_, ?_, ?_, ?_⟩
  · simp only [collect_output_files, List.map_map]
    exact List.map_id names
  · intro i
    simp [collect_output_files]
  · intro f hf
    simp only [collect_output_files, List.mem_map] at hf
    obtain ⟨fname, _, rfl⟩ := hf
    rfl
  · intro p h
    simp [read_bin_file, h]

/-- Witness for claim C8 at a concrete input: a single requested name whose
file is missing yields one entry with that name and empty content. -/
theorem claim_C8_witness :
    ((collect_output_files (fun _ => (none : Option (List Nat))) "/t" ["a"]).map
        FileInfo.filename = ["a"])
    ∧ read_bin_file (fun _ => (none : Option (List Nat))) "/t/a" = [] :=
  ⟨(claim_C8 (fun _ => none) "/t" ["a"]).1,
   (claim_C8 (fun _ => none) "/t" ["a"]).2.2.2 "/t/a" rfl⟩

/-- Exhaustive path analysis of the directory effects of container_init, by
case analysis along its chain of fallible operations: a failure before
the scratch directory is created returns 1 with neither directory created;
once past the namespace setup the scratch directory is always created; a
return 0 satisfies the both-created-and-removed invariant; every failure
return after creation leaves the created directories in place; and an
uncaught exception dies with both directories created, leaving both in
place unless it happened at the result write, which runs after cleanup. -/
theorem container_init_dirs_paths (env : InitEnv) :
    ((env.barrier_ok = false ∨ env.ns_setup_ok = false) →
      container_init_dirs env = (⟨false, false, false, false⟩, InitOutcome.ret 1))
    ∧ ((container_init_dirs env).2 = InitOutcome.ret 0 →
      both_or_neither (container_init_dirs env).1)
    ∧ (env.barrier_ok = true → env.ns_setup_ok = true →
      (container_init_dirs env).1.scratch_created = true)
    ∧ ((container_init_dirs env).2 = InitOutcome.ret 1 →
      env.barrier_ok = true → env.ns_setup_ok = true →
      (container_init_dirs env).1.scratch_exists = true
      ∧ (container_init_dirs env).1.cgroup_exists
        = (container_init_dirs env).1.cgroup_created)
    ∧ ((container_init_dirs env).2 = InitOutcome.aborted →
      (container_init_dirs env).1.scratch_created = true
      ∧ (container_init_dirs env).1.cgroup_created = true
      ∧ (((container_init_dirs env).1.scratch_exists = true
          ∧ (container_init_dirs env).1.cgroup_exists = true)
        ∨ ((container_init_dirs env).1.scratch_exists = false
          ∧ (container_init_dirs env).1.cgroup_exists = false
          ∧ env.result_write_ok = false))) := by
  rcases env with ⟨b1, b2, b3, b4, b5, b6, b7, b8, b9, b10, b11⟩
  cases b1 with
  | false => simp [container_init_dirs, both_or_neither]
  | true =>
  cases b2 with
  | false => simp [container_init_dirs, both_or_neither]
  | true =>
  cases b3 with
  | false => simp [container_init_dirs, both_or_neither]
  | true =>
  cases b4 with
  | false => simp [container_init_dirs, both_or_neither]
  | true =>
  cases b5 with
  | false => simp [container_init_dirs, both_or_neither]
  | true =>
  cases b6 with
  | false => simp [container_init_dirs, both_or_neither]
  | true =>
  cases b7 with
  | false => simp [container_init_dirs, both_or_neither]
  | true =>
  cases b8 with
  | false => simp [container_init_dirs, both_or_neither]
  | true =>
  cases b9 with
  | false => simp [container_init_dirs, both_or_neither]
  | true =>
  cases b10 with
  | false => simp [container_init_dirs, both_or_neither]
  | true =>
  cases b11 with
  | false => simp [container_init_dirs, both_or_neither]
  | true => simp [container_init_dirs, both_or_neither]

/-- Claim C9 counterexample: when the bind mount of the rootfs fails,
container_init returns 1 with the scratch directory created and never
removed while the cgroup directory was never created — the two directories
are neither both created and removed nor both absent. -/
theorem claim_C9_counterexample :
    ¬ both_or_neither
      (container_init_dirs
        ⟨true, true, false, true, true, true, true, true, true, true, true⟩).1 := by
  decide

/-- Claim C9, amended: on the success path of container_init the cgroup and
scratch directories are both created and both removed, and whenever
container_init returns 0 neither directory remains; every failure path that
returns before the scratch directory is created returns 1 with neither
directory ever created; every failure path that returns 1 after the scratch
directory is created leaves the already-created directories in place — the
scratch directory always, the cgroup directory exactly when it had been
created; and a death from an uncaught exception happens with both
directories created, leaving both in place unless it occurred at the result
write, which runs after cleanup. -/
theorem claim_C9 :
    (container_init_dirs ⟨true, true, true, true, true, true, true, true, true, true, true⟩
      = (⟨true, true, false, false⟩, InitOutcome.ret 0))
    ∧ (∀ env : InitEnv, (container_init_dirs env).2 = InitOutcome.ret 0 →
        both_or_neither (container_init_dirs env).1)
    ∧ (∀ env : InitEnv, env.barrier_ok = false ∨ env.ns_setup_ok = false →
        container_init_dirs env = (⟨false, false, false, false⟩, InitOutcome.ret 1))
    ∧ (∀ env : InitEnv, env.barrier_ok = true → env.ns_setup_ok = true →
        (container_init_dirs env).1.scratch_created = true)
    ∧ (∀ env : InitEnv, (container_init_dirs env).2 = InitOutcome.ret 1 →
        env.barrier_ok = true → env.ns_setup_ok = true →
        (container_init_dirs env).1.scratch_exists = true
        ∧ (container_init_dirs env).1.cgroup_exists
          = (container_init_dirs env).1.cgroup_created)
    ∧ (∀ env : InitEnv, (container_init_dirs env).2 = InitOutcome.aborted →
        (container_init_dirs env).1.scratch_created = true
        ∧ (container_init_dirs env).1.cgroup_created = true
        ∧ (((container_init_dirs env).1.scratch_exists = true
            ∧ (container_init_dirs env).1.cgroup_exists = true)
          ∨ ((container_init_dirs env).1.scratch_exists = false
            ∧ (container_init_dirs env).1.cgroup_exists = false
            ∧ env.result_write_ok = false))) :=
  ⟨rfl,
   fun env => (container_init_dirs_paths env).2.1,
   fun env => (container_init_dirs_paths env).1,
   fun env => (container_init_dirs_paths env).2.2.1,
   fun env => (container_init_dirs_paths env).2.2.2.1,
   fun env => (container_init_dirs_paths env).2.2.2.2⟩

/-- Witness for claim C9 at concrete inputs: the all-success environment
satisfies the both-or-neither invariant; a barrier failure creates neither
directory; and a bind-mount failure returns 1 with the scratch directory
still in place and the cgroup-directory existence matching its creation. -/
theorem claim_C9_witness :
    both_or_neither
      (container_init_dirs
        ⟨true, true, true, true, true, true, true, true, true, true, true⟩).1
    ∧ container_init_dirs
        ⟨false, true, true, true, true, true, true, true, true, true, true⟩
      = (⟨false, false, false, false⟩, InitOutcome.ret 1)
    ∧ ((container_init_dirs
        ⟨true, true, false, true, true, true, true, true, true, true, true⟩).1.scratch_exists
          = true
      ∧ (container_init_dirs
        ⟨true, true, false, true, true, true, true, true, true, true, true⟩).1.cgroup_exists
        = (container_init_dirs
        ⟨true, true, false, true, true, true, true, true, true, true, true⟩).1.cgroup_created) :=
  ⟨claim_C9.2.1 ⟨true, true, true, true, true, true, true, true, true, true, true⟩
      (by decide),
   claim_C9.2.2.1 ⟨false, true, true, true, true, true, true, true, true, true, true⟩
      (Or.inl rfl),
   claim_C9.2.2.2.2.1 ⟨true, true, false, true, true, true, true, true, true, true, true⟩
      (by decide) rfl rfl⟩

/-- Claim C10: writing a string with write_proto_str and reading the bytes
back with read_proto_str returns the string unchanged whenever its length
fits in a non-negative 32-bit int; the empty string is written as a single
4-byte zero length with no payload bytes, and decodes back to the empty
string with no further read from the stream. -/
theorem claim_C10 :
    (write_proto_str [] = [0, 0, 0, 0]
      ∧ ∀ rest : List Nat, read_proto_str (0 :: 0 :: 0 :: 0 :: rest) = some ([], rest))
    ∧ ∀ (s rest : List Nat), s.length < 2147483648 →
        read_proto_str (write_proto_str s ++ rest) = some (s, rest) := by
  refine ⟨⟨by decide, fun rest => ?_⟩, fun s rest h => ?_⟩
  · simp [read_proto_str, u32le_value, toInt32]
  · have h32 : s.length < 4294967296 := by omega
    have hw : write_proto_str s ++ rest
        = (s.length % 256) :: (s.length / 256 % 256) :: (s.length / 65536 % 256)
          :: (s.length / 16777216 % 256)
          :: ((if 0 < toInt32 s.length then s else []) ++ rest) := by
      simp [write_proto_str, u32le_bytes]
    rw [hw]
    simp only [read_proto_str]
    rw [u32le_value_bytes h32, toInt32_of_lt h]
    rcases Nat.eq_zero_or_pos s.length with hz | hp
    · have hsnil : s = [] := List.length_eq_zero.mp hz
      subst hsnil
      simp [toInt32]
    · have hpos : (0 : Int) < (s.length : Int) := by exact_mod_cast hp
      rw [if_pos hpos]
      rw [if_neg (show ¬((s.length : Int) = 0) by exact_mod_cast hp.ne')]
      rw [if_neg (show ¬((s.length : Int) < 0) by omega)]
      rw [Int.toNat_natCast]
      rw [if_neg (show ¬((s ++ rest).length < s.length) by simp [List.length_append])]
      rw [List.take_left, List.drop_left]

/-- Witness for claim C10 at a concrete input: a three-byte string survives
the roundtrip with the remainder of the stream intact. -/
theorem claim_C10_witness :
    read_proto_str (write_proto_str [1, 2, 3] ++ [9]) = some ([1, 2, 3], [9]) :=
  claim_C10.2 [1, 2, 3] [9] (by decide)

end Judger
